import Mathlib

/-!
Verification development for the MagGeo spatiotemporal interpolation and
geomagnetic synthesis engine.

The computational core of the repository (`maggeo/auxiliaryfunctions.py`,
`maggeo/interpolation.py`, `maggeo/chaos.py`, `maggeo/core.py`,
`maggeo/parallel_processing.py`) is shallowly embedded here.

Modelling conventions:
* pandas DataFrames become Lean lists of records; a time-indexed satellite
  series becomes a list of `SwarmRec` carrying its integer `epoch` index key;
* Python floats are modelled as rationals (`ℚ`) in the interpolation
  pipeline, where every operation the claims touch is exact field
  arithmetic, and as reals (`ℝ`) in the coordinate transform and derived
  scalar calculator, where square roots and inverse trigonometry are
  essential to the claims;
* IEEE NaN (produced by `float('nan')` placeholders and by pandas
  reductions over empty frames) is modelled as `none : Option ℚ`;
* code that can raise (`Kradius` on out-of-domain latitude, column access
  on the column-less `pd.DataFrame()` sentinel returned by `DfTime_func`)
  returns `Option`, with `none` marking the raise;
* the two transcendental kernels consumed by the interpolation pipeline -
  the haversine great-circle distance and the square root inside `DistJ` -
  are taken as explicit function parameters (`hav`, `sqrtQ`).  No claim
  constrains their values: they only feed the spatial filter predicate and
  the `Dj` column, so every theorem below is proved for an arbitrary
  kernel, which is strictly stronger than fixing the concrete one.
-/

namespace MagGeo

/-- One record of a satellite measurement series (one row of the Swarm
DataFrames built by `get_swarm_residuals`): the integer `epoch` index key,
position, NEC and scalar residuals, the integer quality codes `Flags_F` and
`Flags_B`, and the `Kp` activity index. -/
structure SwarmRec where
  epoch : ℤ
  Latitude : ℚ
  Longitude : ℚ
  N_res : ℚ
  E_res : ℚ
  C_res : ℚ
  F_res : ℚ
  Flags_F : ℤ
  Flags_B : ℤ
  Kp : ℚ
deriving DecidableEq, Repr

/-- `Kradius` from `auxiliaryfunctions.py`: latitude-dependent search radius
in km.  `none` models the `ValueError` raised when the latitude is outside
the open interval (-90, 90). -/
def Kradius (lat : ℚ) : Option ℚ :=
  if 0 ≤ lat ∧ lat < 90 then
    some ((-10) * lat + 1800)
  else if -90 < lat ∧ lat < 0 then
    some (10 * lat + 1800)
  else
    none

/-- `DistJ` from `auxiliaryfunctions.py`: the joint space-time distance
`sqrt(((ds/r)^2 + (dt/DT)^2)/2)`, with the square root kernel `sqrtQ`
abstracted. -/
def DistJ (sqrtQ : ℚ → ℚ) (ds r dt DT : ℚ) : ℚ :=
  sqrtQ (((ds / r) ^ 2 + (dt / DT) ^ 2) / 2)

/-- Window predicate of the time selector: the record epoch lies in the
inclusive interval [GPSTime - DT, GPSTime + DT]. -/
def inWindow (GPSTime DT : ℤ) (r : SwarmRec) : Prop :=
  GPSTime - DT ≤ r.epoch ∧ r.epoch ≤ GPSTime + DT

instance (GPSTime DT : ℤ) (r : SwarmRec) : Decidable (inWindow GPSTime DT r) :=
  inferInstanceAs (Decidable (_ ∧ _))

/-- `DfTime_func` from `auxiliaryfunctions.py`.  When `GPSTime` is an index
entry it returns the label slice `SwarmData.loc[GPSTime-DT : GPSTime+DT]`,
which on a monotonically increasing epoch index is exactly the records whose
epoch lies in the inclusive window; when `GPSTime` is not an index entry it
returns the fresh column-less `pd.DataFrame()` sentinel, modelled as `none`
(downstream column access on that sentinel raises `KeyError`). -/
def DfTime_func (SwarmData : List SwarmRec) (GPSTime DT : ℤ) :
    Option (List SwarmRec) :=
  if GPSTime ∈ SwarmData.map (fun r => r.epoch) then
    some (SwarmData.filter (fun r => decide (inWindow GPSTime DT r)))
  else
    none

/-- A candidate row of the ephemeral per-query DataFrames `tk_a/tk_b/tk_c`
after the `dT`, `distance` and `r` columns have been assigned in
`st_idw_process`. -/
structure Cand where
  row : SwarmRec
  dT : ℤ
  distance : ℚ
  r : ℚ
deriving DecidableEq, Repr

/-- Column assignments of `st_idw_process` steps 2-4: `dT` = gps_epoch minus
record epoch, `distance` = haversine distance from the query point to the
record position (kernel `hav`), `r` = search radius at the query latitude. -/
def addCols (hav : ℚ → ℚ → ℚ → ℚ → ℚ) (gps_lat gps_long : ℚ) (gps_epoch : ℤ)
    (radius : ℚ) (tk : List SwarmRec) : List Cand :=
  tk.map (fun rec =>
    { row := rec
      dT := gps_epoch - rec.epoch
      distance := hav gps_lat gps_long rec.Latitude rec.Longitude
      r := radius })

/-- Step 5 of `st_idw_process`: keep the candidates with `distance <= r`. -/
def spaceFilter (df : List Cand) : List Cand :=
  df.filter (fun c => decide (c.distance ≤ c.r))

/-- Step 6 of `st_idw_process` (`filter_flags`): keep the candidates with
`F_res` between -2000 and 2000 (inclusive), `Flags_F` between 0 and 1, and
`Flags_B` between 0 and 1; the flags are integer quality codes, so
`between(0, 1)` keeps exactly the whitelist {0, 1}. -/
def filter_flags (df : List Cand) : List Cand :=
  ((df.filter (fun c => decide (-2000 ≤ c.row.F_res ∧ c.row.F_res ≤ 2000))).filter
      (fun c => decide (0 ≤ c.row.Flags_F ∧ c.row.Flags_F ≤ 1))).filter
    (fun c => decide (0 ≤ c.row.Flags_B ∧ c.row.Flags_B ≤ 1))

/-- Steps 1-7 of `st_idw_process`: per-satellite time filtering, column
assignments, the spatial filter, the quality filter, and the `pd.concat` of
the three survivors into the pooled candidate set.  `none` models a raise:
either a `DfTime_func` call returned the column-less sentinel (so the later
column accesses raise `KeyError`) or `Kradius` raised on an out-of-domain
latitude. -/
def st_idw_pool (hav : ℚ → ℚ → ℚ → ℚ → ℚ) (gps_lat gps_long : ℚ)
    (gps_epoch : ℤ) (swarm_a swarm_b swarm_c : List SwarmRec)
    (dt_seconds : ℤ) : Option (List Cand) :=
  match DfTime_func swarm_a gps_epoch dt_seconds,
      DfTime_func swarm_b gps_epoch dt_seconds,
      DfTime_func swarm_c gps_epoch dt_seconds,
      Kradius gps_lat with
  | some ta, some tb, some tc, some radius =>
    let tk_a := addCols hav gps_lat gps_long gps_epoch radius ta
    let tk_b := addCols hav gps_lat gps_long gps_epoch radius tb
    let tk_c := addCols hav gps_lat gps_long gps_epoch radius tc
    let k_a := filter_flags (spaceFilter tk_a)
    let k_b := filter_flags (spaceFilter tk_b)
    let k_c := filter_flags (spaceFilter tk_c)
    some (k_a ++ k_b ++ k_c)
  | _, _, _, _ => none

/-- Minimum of a pandas numeric Series: `NaN` (here `none`) on an empty
series. -/
def seriesMin : List ℚ → Option ℚ
  | [] => none
  | x :: xs => some (xs.foldl min x)

/-- Mean of a pandas numeric Series: `NaN` (here `none`) on an empty
series. -/
def seriesMean (l : List ℚ) : Option ℚ :=
  if l = [] then none else some (l.sum / (l.length : ℚ))

/-- The dictionary returned by `st_idw_process`. -/
structure InterpResult where
  Latitude : ℚ
  Longitude : ℚ
  Altitude : ℚ
  DateTime : ℤ
  N_res : ℚ
  E_res : ℚ
  C_res : ℚ
  TotalPoints : ℕ
  Minimum_Distance : Option ℚ
  Average_Distance : Option ℚ
  Kp : Option ℚ
deriving DecidableEq, Repr

/-- Steps 8-15 of `st_idw_process` on the pooled set: the diagnostics
(`min`, `mean` over the pooled distances, mean `Kp`), the `Dj` column via
`DistJ`, the raw weights `W = 1/Dj^2`, the weight sum, the normalized
weights `Wj = W / sum_w`, the `Wj`-weighted residual sums, and the result
dictionary.  Sums over an empty pooled set are pandas empty-series sums,
i.e. `0`. -/
def st_idw_build (sqrtQ : ℚ → ℚ) (gps_lat gps_long gps_altitude : ℚ)
    (gps_datetime : ℤ) (dt_seconds : ℤ)
    (swarm_filtered : List Cand) : InterpResult :=
  let min_dist := seriesMin (swarm_filtered.map (fun c => c.distance))
  let avg_dist := seriesMean (swarm_filtered.map (fun c => c.distance))
  let kp_avg := seriesMean (swarm_filtered.map (fun c => c.row.Kp))
  let Dj := fun c : Cand =>
    DistJ sqrtQ c.distance c.r (c.dT : ℚ) (dt_seconds : ℚ)
  let W := fun c : Cand => 1 / (Dj c) ^ 2
  let sum_w := (swarm_filtered.map W).sum
  let Wj := fun c : Cand => W c / sum_w
  { Latitude := gps_lat
    Longitude := gps_long
    Altitude := gps_altitude
    DateTime := gps_datetime
    N_res := (swarm_filtered.map (fun c => Wj c * c.row.N_res)).sum
    E_res := (swarm_filtered.map (fun c => Wj c * c.row.E_res)).sum
    C_res := (swarm_filtered.map (fun c => Wj c * c.row.C_res)).sum
    TotalPoints := swarm_filtered.length
    Minimum_Distance := min_dist
    Average_Distance := avg_dist
    Kp := kp_avg }

/-- `st_idw_process` from `interpolation.py`: the pooled candidate set of
`st_idw_pool` fed through `st_idw_build`; `none` models a raise inside the
function (caught by the per-point handler of the batch drivers). -/
def st_idw_process (hav : ℚ → ℚ → ℚ → ℚ → ℚ) (sqrtQ : ℚ → ℚ)
    (gps_lat gps_long gps_altitude : ℚ) (gps_datetime : ℤ) (gps_epoch : ℤ)
    (swarm_a swarm_b swarm_c : List SwarmRec) (dt_seconds : ℤ) :
    Option InterpResult :=
  (st_idw_pool hav gps_lat gps_long gps_epoch swarm_a swarm_b swarm_c
      dt_seconds).map
    (st_idw_build sqrtQ gps_lat gps_long gps_altitude gps_datetime
      dt_seconds)

/-- One row of the GPS trajectory DataFrame consumed by the batch drivers. -/
structure GPSPoint where
  gpsLat : ℚ
  gpsLong : ℚ
  gpsAltitude : ℚ
  gpsDateTime : ℤ
  epoch : ℤ
deriving DecidableEq, Repr

/-- One row of the annotated batch DataFrame.  The residual and diagnostic
fields are `Option ℚ` because the per-point exception handler of
`annotate_gps_with_geomag` (and of `process_gps_chunk_complete_pipeline`)
fills them with `float('nan')` (= `none`) when `st_idw_process` raises. -/
structure RowResult where
  Latitude : ℚ
  Longitude : ℚ
  Altitude : ℚ
  DateTime : ℤ
  N_res : Option ℚ
  E_res : Option ℚ
  C_res : Option ℚ
  TotalPoints : ℕ
  Minimum_Distance : Option ℚ
  Average_Distance : Option ℚ
  Kp : Option ℚ
deriving DecidableEq, Repr

/-- The per-point body of the sequential loop in
`annotate_gps_with_geomag` (`core.py`), identical to the per-point body of
`process_gps_chunk_complete_pipeline` (`parallel_processing.py`): call
`st_idw_process` and, when it raises, substitute the NaN placeholder row
with `TotalPoints = 0` and continue. -/
def annotate_point (hav : ℚ → ℚ → ℚ → ℚ → ℚ) (sqrtQ : ℚ → ℚ)
    (swarm_a swarm_b swarm_c : List SwarmRec) (dt_seconds : ℤ)
    (row : GPSPoint) : RowResult :=
  match st_idw_process hav sqrtQ row.gpsLat row.gpsLong row.gpsAltitude
      row.gpsDateTime row.epoch swarm_a swarm_b swarm_c dt_seconds with
  | some res =>
    { Latitude := res.Latitude
      Longitude := res.Longitude
      Altitude := res.Altitude
      DateTime := res.DateTime
      N_res := some res.N_res
      E_res := some res.E_res
      C_res := some res.C_res
      TotalPoints := res.TotalPoints
      Minimum_Distance := res.Minimum_Distance
      Average_Distance := res.Average_Distance
      Kp := res.Kp }
  | none =>
    { Latitude := row.gpsLat
      Longitude := row.gpsLong
      Altitude := row.gpsAltitude
      DateTime := row.gpsDateTime
      N_res := none
      E_res := none
      C_res := none
      TotalPoints := 0
      Minimum_Distance := none
      Average_Distance := none
      Kp := none }

/-- The sequential interpolation loop of `annotate_gps_with_geomag`: one
result row appended per GPS row, in input order, a bad point contributing
its placeholder row instead of aborting the batch. -/
def annotate_batch (hav : ℚ → ℚ → ℚ → ℚ → ℚ) (sqrtQ : ℚ → ℚ)
    (swarm_a swarm_b swarm_c : List SwarmRec) (dt_seconds : ℤ)
    (gps : List GPSPoint) : List RowResult :=
  gps.map (annotate_point hav sqrtQ swarm_a swarm_b swarm_c dt_seconds)

/-- `get_optimal_chunk_size` from `parallel_processing.py` with its default
`min_chunk_size = 50`: integer division as in Python on non-negative
operands. -/
def get_optimal_chunk_size (total_gps_points n_cores : ℕ) : ℕ :=
  min (max (total_gps_points / (n_cores * 4)) 50) 200

/-- `split_gps_trajectory_into_chunks` from `parallel_processing.py`: the
chunks `gps_df.iloc[i : i + chunk_size]` for `i = 0, chunk_size,
2*chunk_size, ...`.  Faithful for every `chunk_size >= 1` (Python raises on
step 0, which no caller passes). -/
def split_gps_trajectory_into_chunks {α : Type} (chunk_size : ℕ) :
    List α → List (List α)
  | [] => []
  | x :: xs =>
    (x :: xs.take (chunk_size - 1)) ::
      split_gps_trajectory_into_chunks chunk_size (xs.drop (chunk_size - 1))
termination_by l => l.length
decreasing_by simp only [List.length_drop, List.length_cons]; omega

/-- `process_gps_chunk_complete_pipeline` from `parallel_processing.py`: the
per-point interpolation with the same bad-point placeholder as the
sequential loop, followed by the chunk-level CHAOS and derived-scalar stage.
That stage (`chaos_ground_values` plus the four scalar columns) is a
vectorized computation in which every output row depends only on its own
input row, so it is modelled as a row-wise map of an arbitrary per-row stage
`post`. -/
def process_gps_chunk {β : Type} (hav : ℚ → ℚ → ℚ → ℚ → ℚ) (sqrtQ : ℚ → ℚ)
    (swarm_a swarm_b swarm_c : List SwarmRec) (dt_seconds : ℤ)
    (post : RowResult → β) (gps_chunk : List GPSPoint) : List β :=
  (gps_chunk.map (annotate_point hav sqrtQ swarm_a swarm_b swarm_c
      dt_seconds)).map post

/-- `parallel_maggeo_annotation` from `parallel_processing.py`: split only
the GPS trajectory into chunks (the three satellite series stay complete),
push every chunk through the complete per-chunk pipeline, and concatenate
the chunk results in chunk order (`pool.imap` yields results in submission
order). -/
def parallel_maggeo_annotate {β : Type} (hav : ℚ → ℚ → ℚ → ℚ → ℚ)
    (sqrtQ : ℚ → ℚ) (swarm_a swarm_b swarm_c : List SwarmRec)
    (dt_seconds : ℤ) (post : RowResult → β) (chunk_size : ℕ)
    (gps : List GPSPoint) : List β :=
  ((split_gps_trajectory_into_chunks chunk_size gps).map
      (process_gps_chunk hav sqrtQ swarm_a swarm_b swarm_c dt_seconds
        post)).flatten

/-- The sequential path of `annotate_gps_with_geomag`: interpolate every
point in input order, then run the same batch-level CHAOS and
derived-scalar stage (again a row-wise map of `post`) over the whole
annotated frame. -/
def sequential_annotate {β : Type} (hav : ℚ → ℚ → ℚ → ℚ → ℚ)
    (sqrtQ : ℚ → ℚ) (swarm_a swarm_b swarm_c : List SwarmRec)
    (dt_seconds : ℤ) (post : RowResult → β) (gps : List GPSPoint) :
    List β :=
  (annotate_batch hav sqrtQ swarm_a swarm_b swarm_c dt_seconds gps).map post

/-- A `(B_r, B_theta, B_phi)` triple in the geocentric spherical frame, as
returned by one call of the external CHAOS model synthesis (treated as a
black box per its call contract). -/
structure SphTriple where
  B_r : ℝ
  B_t : ℝ
  B_phi : ℝ

/-- `chaos_ground_values` from `chaos.py`, per batch row.  The three model
contributions (core, crust, magnetosphere) are black-box inputs; `sd`, `cd`
are the rotation factors produced by `gg_to_geo` for this row; the function
performs steps 3-6b of the source: map the interpolated NEC residual into
the spherical frame, sum the contributions (all four for the total field,
core + crust only for the internal variant), convert back to NEC, and
rotate geocentric to geodetic.  Returns
`(X_obs, Y_obs, Z_obs, X_obs_internal, Y_obs_internal, Z_obs_internal)`. -/
noncomputable def chaos_ground_values_row (core crust magneto : SphTriple)
    (N_res E_res C_res sd cd : ℝ) : ℝ × ℝ × ℝ × ℝ × ℝ × ℝ :=
  let B_r_swarm := -C_res
  let B_t_swarm := -N_res
  let B_phi_swarm := E_res
  let B_r_ground := core.B_r + crust.B_r + magneto.B_r + B_r_swarm
  let B_t_ground := core.B_t + crust.B_t + magneto.B_t + B_t_swarm
  let B_phi_ground := core.B_phi + crust.B_phi + magneto.B_phi + B_phi_swarm
  let B_r_ground_internal := core.B_r + crust.B_r
  let B_t_ground_internal := core.B_t + crust.B_t
  let B_phi_ground_internal := core.B_phi + crust.B_phi
  let Z_chaos := -B_r_ground
  let X_chaos := -B_t_ground
  let Y_chaos := B_phi_ground
  let Z_chaos_internal := -B_r_ground_internal
  let X_chaos_internal := -B_t_ground_internal
  let Y_chaos_internal := B_phi_ground_internal
  let X_obs := X_chaos * cd + Z_chaos * sd
  let Z_obs := Z_chaos * cd - X_chaos * sd
  let Y_obs := Y_chaos
  let X_obs_internal := X_chaos_internal * cd + Z_chaos_internal * sd
  let Z_obs_internal := Z_chaos_internal * cd - X_chaos_internal * sd
  let Y_obs_internal := Y_chaos_internal
  (X_obs, Y_obs, Z_obs, X_obs_internal, Y_obs_internal, Z_obs_internal)

/-- WGS-84 equatorial radius `eqrad` of `gg_to_geo` (km). -/
noncomputable def ggEqrad : ℝ := 6378.137

/-- WGS-84 flattening `flat` of `gg_to_geo`. -/
noncomputable def ggFlat : ℝ := 1 / 298.257223563

/-- Polar radius `plrad = eqrad*(1-flat)` of `gg_to_geo`. -/
noncomputable def ggPlrad : ℝ := ggEqrad * (1 - ggFlat)

/-- `ctgd = cos(deg2rad(gdcolat))` of `gg_to_geo`. -/
noncomputable def ggCt (gdcolat : ℝ) : ℝ := Real.cos (gdcolat * Real.pi / 180)

/-- `stgd = sin(deg2rad(gdcolat))` of `gg_to_geo`. -/
noncomputable def ggSt (gdcolat : ℝ) : ℝ := Real.sin (gdcolat * Real.pi / 180)

/-- `rho = sqrt(a2*s2 + b2*c2)` of `gg_to_geo`, with `a2 = eqrad*eqrad`,
`b2 = plrad*plrad`, `c2 = ctgd*ctgd`, `s2 = 1 - c2`. -/
noncomputable def ggRho (gdcolat : ℝ) : ℝ :=
  Real.sqrt (ggEqrad * ggEqrad * (1 - ggCt gdcolat * ggCt gdcolat) +
    ggPlrad * ggPlrad * (ggCt gdcolat * ggCt gdcolat))

/-- `rad = sqrt(h*(h+2*rho) + (a4*s2+b4*c2)/rho^2)` of `gg_to_geo`, with
`a4 = a2*a2`, `b4 = b2*b2`. -/
noncomputable def ggRad (h gdcolat : ℝ) : ℝ :=
  Real.sqrt (h * (h + 2 * ggRho gdcolat) +
    (ggEqrad * ggEqrad * (ggEqrad * ggEqrad) *
        (1 - ggCt gdcolat * ggCt gdcolat) +
      ggPlrad * ggPlrad * (ggPlrad * ggPlrad) *
        (ggCt gdcolat * ggCt gdcolat)) / ggRho gdcolat ^ 2)

/-- `cd = (h+rho)/rad` of `gg_to_geo`: the cosine rotation factor. -/
noncomputable def ggCd (h gdcolat : ℝ) : ℝ := (h + ggRho gdcolat) / ggRad h gdcolat

/-- `sd = (a2-b2)*ctgd*stgd/(rho*rad)` of `gg_to_geo`: the sine rotation
factor. -/
noncomputable def ggSd (h gdcolat : ℝ) : ℝ :=
  (ggEqrad * ggEqrad - ggPlrad * ggPlrad) * ggCt gdcolat * ggSt gdcolat /
    (ggRho gdcolat * ggRad h gdcolat)

/-- `gg_to_geo` from `auxiliaryfunctions.py`: geodetic height and geodetic
colatitude (degrees) to geocentric radius, geocentric colatitude and the
rotation factors `sd`, `cd`, via the WGS-84 closed-form equations.  Returns
`(rad, thc, sd, cd)`. -/
noncomputable def gg_to_geo (h gdcolat : ℝ) : ℝ × ℝ × ℝ × ℝ :=
  (ggRad h gdcolat,
    Real.arccos (ggCt gdcolat * ggCd h gdcolat - ggSt gdcolat * ggSd h gdcolat) *
      180 / Real.pi,
    ggSd h gdcolat,
    ggCd h gdcolat)

/-- `np.arctan2 y x` over the reals: the argument of the complex number
`x + y*i`, which lies in (-pi, pi], equals `arctan (y/x)` for `x > 0`, and
is `0` at the origin, matching the numpy convention up to the signed zeros
that real arithmetic does not represent. -/
noncomputable def arctan2 (y x : ℝ) : ℝ := Complex.arg ⟨x, y⟩

/-- `np.degrees`. -/
noncomputable def degrees (x : ℝ) : ℝ := x * 180 / Real.pi

/-- Derived scalar `H = sqrt(N^2 + E^2)` (`core.py` step 5b). -/
noncomputable def computeH (n e : ℝ) : ℝ := Real.sqrt (n ^ 2 + e ^ 2)

/-- Derived scalar `D = degrees(arctan2(E, N))` (`core.py` step 5b). -/
noncomputable def computeD (n e : ℝ) : ℝ := degrees (arctan2 e n)

/-- Derived scalar `I = degrees(arctan2(C, H))` (`core.py` step 5b). -/
noncomputable def computeI (n e c : ℝ) : ℝ := degrees (arctan2 c (computeH n e))

/-- Derived scalar `F = sqrt(N^2 + E^2 + C^2)` (`core.py` step 5b). -/
noncomputable def computeF (n e c : ℝ) : ℝ := Real.sqrt (n ^ 2 + e ^ 2 + c ^ 2)

/-- IEEE-NaN-aware lift of `computeH`: a NaN operand (modelled as `none`)
propagates to NaN, as in numpy. -/
noncomputable def optH : Option ℝ → Option ℝ → Option ℝ
  | some n, some e => some (computeH n e)
  | _, _ => none

/-- IEEE-NaN-aware lift of `computeD`. -/
noncomputable def optD : Option ℝ → Option ℝ → Option ℝ
  | some n, some e => some (computeD n e)
  | _, _ => none

/-- IEEE-NaN-aware lift of `computeI`. -/
noncomputable def optI : Option ℝ → Option ℝ → Option ℝ → Option ℝ
  | some n, some e, some c => some (computeI n e c)
  | _, _, _ => none

/-- IEEE-NaN-aware lift of `computeF`. -/
noncomputable def optF : Option ℝ → Option ℝ → Option ℝ → Option ℝ
  | some n, some e, some c => some (computeF n e c)
  | _, _, _ => none

/-! ## Concrete fixtures used by witnesses and counterexamples -/

/-- A clean satellite record at epoch `e`: zero position, zero residuals,
nominal quality flags. -/
def mkRec (e : ℤ) : SwarmRec :=
  { epoch := e, Latitude := 0, Longitude := 0, N_res := 0, E_res := 0,
    C_res := 0, F_res := 0, Flags_F := 0, Flags_B := 0, Kp := 0 }

/-- A satellite record at epoch `e` whose scalar residual `F_res = 5000`
violates the quality band [-2000, 2000]. -/
def badRec (e : ℤ) : SwarmRec :=
  { mkRec e with F_res := 5000 }

/-- A degenerate haversine kernel reporting distance 0 everywhere (all
candidates spatially coincident with the query point). -/
def hav0 : ℚ → ℚ → ℚ → ℚ → ℚ := fun _ _ _ _ => 0

/-- A square-root kernel shifted away from zero, so every joint distance is
strictly positive. -/
def sqrtQ1 : ℚ → ℚ := fun x => x + 1

/-- A GPS query point at the origin with epoch 100. -/
def gps0 : GPSPoint :=
  { gpsLat := 0, gpsLong := 0, gpsAltitude := 0, gpsDateTime := 0,
    epoch := 100 }

/-- A second GPS query point, used to exercise chunked processing. -/
def gps1 : GPSPoint :=
  { gpsLat := 10, gpsLong := 20, gpsAltitude := 1, gpsDateTime := 7,
    epoch := 200 }

/-! ## Helper facts -/

/-- On a sorted tail whose every epoch is at least the window lower bound,
the window filter agrees with `takeWhile`: once one record exceeds the
upper bound, all later ones do. -/
lemma filter_window_eq_takeWhile (t DT : ℤ) :
    ∀ l : List SwarmRec,
      List.Sorted (fun a b : SwarmRec => a.epoch ≤ b.epoch) l →
      (∀ y ∈ l, t - DT ≤ y.epoch) →
      l.filter (fun r => decide (inWindow t DT r)) =
        l.takeWhile (fun r => decide (inWindow t DT r))
  | [], _, _ => rfl
  | y :: ys, hs, hlo => by
    rw [List.sorted_cons] at hs
    by_cases hy : inWindow t DT y
    · rw [List.filter_cons_of_pos (by simpa using hy),
        List.takeWhile_cons_of_pos (by simpa using hy)]
      exact congrArg (y :: ·)
        (filter_window_eq_takeWhile t DT ys hs.2
          (fun z hz => hlo z (List.mem_cons_of_mem y hz)))
    · rw [List.filter_cons_of_neg (by simpa using hy),
        List.takeWhile_cons_of_neg (by simpa using hy)]
      rw [List.filter_eq_nil_iff]
      intro z hz
      have h1 : t - DT ≤ y.epoch := hlo y (List.mem_cons_self y ys)
      have h2 : t + DT < y.epoch := by
        by_contra hc
        push_neg at hc
        exact hy ⟨h1, hc⟩
      have h3 : y.epoch ≤ z.epoch := hs.1 z hz
      simp only [decide_eq_true_eq, inWindow]
      omega

/-- On a sorted series the inclusive-window filter is a contiguous slice: an
infix of the series. -/
lemma filter_window_infix (t DT : ℤ) :
    ∀ l : List SwarmRec,
      List.Sorted (fun a b : SwarmRec => a.epoch ≤ b.epoch) l →
      l.filter (fun r => decide (inWindow t DT r)) <:+: l
  | [], _ => by simp
  | x :: xs, hs => by
    rw [List.sorted_cons] at hs
    by_cases hx : inWindow t DT x
    · rw [List.filter_cons_of_pos (by simpa using hx),
        filter_window_eq_takeWhile t DT xs hs.2
          (fun z hz => le_trans hx.1 (hs.1 z hz))]
      have hpre : xs.takeWhile (fun r => decide (inWindow t DT r)) <+: xs :=
        List.takeWhile_prefix _
      obtain ⟨u, hu⟩ := hpre
      exact ⟨[], u, by simp [hu]⟩
    · rw [List.filter_cons_of_neg (by simpa using hx)]
      obtain ⟨s, u, hsu⟩ := filter_window_infix t DT xs hs.2
      exact ⟨x :: s, u, by simp [hsu]⟩

/-! ## C2: the time-window selector -/

/-- C2 counterexample: a series holding one record at epoch 5, queried at
epoch 4 with half-window 2.  The record lies inside the inclusive window
[2, 6], yet `DfTime_func` returns the empty column-less sentinel (`none`) -
not the window slice - because the query epoch itself is not an index
entry. -/
theorem DfTime_func_counterexample :
    inWindow 4 2 (mkRec 5) ∧
    DfTime_func [mkRec 5] 4 2 = none ∧
    ∀ l : List SwarmRec, DfTime_func [mkRec 5] 4 2 ≠ some l := by
  refine ⟨by simp [inWindow, mkRec], by simp [DfTime_func, mkRec], ?_⟩
  intro l
  simp [DfTime_func, mkRec]

/-- C2 (amended): when the query epoch is itself an index entry, the
selector returns exactly the records whose epoch lies in the inclusive
window [query - DT, query + DT] (records at exactly the boundary included),
as a contiguous slice of the sorted series; when the query epoch is not an
index entry it returns the empty column-less sentinel regardless of what
else lies in the window, and never an error. -/
theorem DfTime_func_spec (s : List SwarmRec) (t DT : ℤ)
    (hs : List.Sorted (fun a b : SwarmRec => a.epoch ≤ b.epoch) s) :
    (t ∈ s.map (fun r => r.epoch) →
      ∃ l, DfTime_func s t DT = some l ∧
        (∀ r : SwarmRec, r ∈ l ↔ r ∈ s ∧ inWindow t DT r) ∧
        l <:+: s) ∧
    (t ∉ s.map (fun r => r.epoch) → DfTime_func s t DT = none) := by
  constructor
  · intro ht
    refine ⟨s.filter (fun r => decide (inWindow t DT r)), ?_, ?_, ?_⟩
    · unfold DfTime_func
      rw [if_pos ht]
    · intro r
      simp [List.mem_filter]
    · exact filter_window_infix t DT s hs
  · intro ht
    unfold DfTime_func
    rw [if_neg ht]

/-- Concrete application of `DfTime_func_spec`: a two-record sorted series
queried at an epoch present in the index yields the inclusive window
slice. -/
theorem DfTime_func_spec_witness :
    ∃ l, DfTime_func [mkRec 3, mkRec 5] 5 2 = some l ∧
      (∀ r : SwarmRec, r ∈ l ↔ r ∈ [mkRec 3, mkRec 5] ∧ inWindow 5 2 r) ∧
      l <:+: [mkRec 3, mkRec 5] :=
  (DfTime_func_spec [mkRec 3, mkRec 5] 5 2 (by simp [mkRec])).1
    (by simp [mkRec])

/-- Characterization of a successful `Kradius` call: the radius is
`1800 - 10*|lat|` and the latitude is strictly inside (-90, 90). -/
lemma Kradius_eq_some_iff (lat r : ℚ) :
    Kradius lat = some r ↔ |lat| < 90 ∧ r = 1800 - 10 * |lat| := by
  unfold Kradius
  rcases le_or_lt 0 lat with hpos | hneg
  · rw [abs_of_nonneg hpos]
    by_cases h90 : lat < 90
    · rw [if_pos ⟨hpos, h90⟩]
      simp only [Option.some.injEq]
      constructor
      · intro he
        exact ⟨h90, by linarith⟩
      · rintro ⟨-, he⟩
        linarith
    · rw [if_neg (by rintro ⟨-, hc⟩; exact h90 hc),
        if_neg (by rintro ⟨-, hc⟩; linarith)]
      constructor
      · intro hcon
        exact Option.noConfusion hcon
      · rintro ⟨hc, -⟩
        exact (h90 hc).elim
  · rw [abs_of_neg hneg]
    by_cases h90 : -90 < lat
    · rw [if_neg (by rintro ⟨hc, -⟩; linarith), if_pos ⟨h90, hneg⟩]
      simp only [Option.some.injEq]
      constructor
      · intro he
        exact ⟨by linarith, by linarith⟩
      · rintro ⟨-, he⟩
        linarith
    · rw [if_neg (by rintro ⟨hc, -⟩; linarith),
        if_neg (by rintro ⟨hc, -⟩; exact h90 hc)]
      constructor
      · intro hcon
        exact Option.noConfusion hcon
      · rintro ⟨hc, -⟩
        exact (h90 (by linarith)).elim

/-! ## C6: the search-radius function -/

/-- C6: `Kradius` returns `-10*lat + 1800` for `0 <= lat < 90` and
`10*lat + 1800` for `-90 < lat < 0` (so the radius is 1800 km at the
equator, lies in (900, 1800], and strictly decreases in absolute latitude),
and raises a domain error exactly when `|lat| >= 90`. -/
theorem Kradius_spec :
    (∀ lat : ℚ, 0 ≤ lat → lat < 90 → Kradius lat = some ((-10) * lat + 1800)) ∧
    (∀ lat : ℚ, -90 < lat → lat < 0 → Kradius lat = some (10 * lat + 1800)) ∧
    Kradius 0 = some 1800 ∧
    (∀ lat : ℚ, Kradius lat = none ↔ 90 ≤ |lat|) ∧
    (∀ a b ra rb : ℚ, Kradius a = some ra → Kradius b = some rb →
      |a| < |b| → rb < ra) ∧
    (∀ lat r : ℚ, Kradius lat = some r → 900 < r ∧ r ≤ 1800) := by
  refine ⟨?_, ?_, ?_, ?_, ?_, ?_⟩
  · intro lat h0 h90
    unfold Kradius
    rw [if_pos ⟨h0, h90⟩]
  · intro lat h90 h0
    unfold Kradius
    rw [if_neg (by rintro ⟨hc, -⟩; linarith), if_pos ⟨h90, h0⟩]
  · norm_num [Kradius]
  · intro lat
    constructor
    · intro hnone
      by_contra habs
      push_neg at habs
      have : Kradius lat = some (1800 - 10 * |lat|) :=
        (Kradius_eq_some_iff lat _).mpr ⟨habs, rfl⟩
      rw [hnone] at this
      exact Option.noConfusion this
    · intro habs
      cases hk : Kradius lat with
      | none => rfl
      | some r =>
        have := (Kradius_eq_some_iff lat r).mp hk
        linarith [this.1]
  · intro a b ra rb ha hb hab
    obtain ⟨-, hra⟩ := (Kradius_eq_some_iff a ra).mp ha
    obtain ⟨-, hrb⟩ := (Kradius_eq_some_iff b rb).mp hb
    rw [hra, hrb]
    linarith
  · intro lat r hk
    obtain ⟨h90, hr⟩ := (Kradius_eq_some_iff lat r).mp hk
    have h0 : 0 ≤ |lat| := abs_nonneg lat
    constructor <;> [linarith; linarith]

/-- Concrete application of `Kradius_spec`: at latitude 10 the search
radius is 1700 km. -/
theorem Kradius_spec_witness : Kradius 10 = some 1700 := by
  have h := Kradius_spec.1 10 (by norm_num) (by norm_num)
  rw [h]
  norm_num

/-! ## Pool destructuring helpers -/

/-- A successful `st_idw_pool` call decomposes into three successful time
filters, a successful radius computation, and the concatenation of the
three spatially and quality filtered candidate lists. -/
lemma st_idw_pool_eq_some (hav : ℚ → ℚ → ℚ → ℚ → ℚ) (gps_lat gps_long : ℚ)
    (gps_epoch : ℤ) (swarm_a swarm_b swarm_c : List SwarmRec)
    (dt_seconds : ℤ) (pool : List Cand)
    (h : st_idw_pool hav gps_lat gps_long gps_epoch swarm_a swarm_b swarm_c
      dt_seconds = some pool) :
    ∃ ta tb tc radius,
      DfTime_func swarm_a gps_epoch dt_seconds = some ta ∧
      DfTime_func swarm_b gps_epoch dt_seconds = some tb ∧
      DfTime_func swarm_c gps_epoch dt_seconds = some tc ∧
      Kradius gps_lat = some radius ∧
      pool =
        filter_flags (spaceFilter
            (addCols hav gps_lat gps_long gps_epoch radius ta)) ++
          filter_flags (spaceFilter
            (addCols hav gps_lat gps_long gps_epoch radius tb)) ++
          filter_flags (spaceFilter
            (addCols hav gps_lat gps_long gps_epoch radius tc)) := by
  unfold st_idw_pool at h
  split at h
  · rename_i ta tb tc radius hA hB hC hK
    simp only [Option.some.injEq] at h
    exact ⟨ta, tb, tc, radius, hA, hB, hC, hK, h.symm⟩
  · exact Option.noConfusion h

/-- Membership in one satellite's filtered candidate list unpacks into list
membership plus the spatial and quality conditions. -/
lemma mem_filters_iff (l : List Cand) (c : Cand) :
    c ∈ filter_flags (spaceFilter l) ↔
      c ∈ l ∧ c.distance ≤ c.r ∧
      (-2000 ≤ c.row.F_res ∧ c.row.F_res ≤ 2000) ∧
      (0 ≤ c.row.Flags_F ∧ c.row.Flags_F ≤ 1) ∧
      (0 ≤ c.row.Flags_B ∧ c.row.Flags_B ≤ 1) := by
  unfold filter_flags spaceFilter
  simp only [List.mem_filter, decide_eq_true_eq]
  tauto

/-! ## C4: filter exclusivity -/

/-- C4: every candidate in the pooled set of `st_idw_process` has survived
all four conditions - `F_res` in [-2000, 2000], `Flags_F` in {0, 1},
`Flags_B` in {0, 1}, and great-circle distance at most the search radius -
and the emitted result is built from that pooled set alone, so no record
violating any condition contributes to the weighted residual sums or to
`TotalPoints`; such candidates are dropped by the filters, never
corrected. -/
theorem st_idw_filter_exclusivity (hav : ℚ → ℚ → ℚ → ℚ → ℚ) (sqrtQ : ℚ → ℚ)
    (gps_lat gps_long gps_altitude : ℚ) (gps_datetime gps_epoch : ℤ)
    (swarm_a swarm_b swarm_c : List SwarmRec) (dt_seconds : ℤ)
    (pool : List Cand)
    (hpool : st_idw_pool hav gps_lat gps_long gps_epoch swarm_a swarm_b
      swarm_c dt_seconds = some pool) :
    (∀ cand ∈ pool,
      (-2000 ≤ cand.row.F_res ∧ cand.row.F_res ≤ 2000) ∧
      (cand.row.Flags_F = 0 ∨ cand.row.Flags_F = 1) ∧
      (cand.row.Flags_B = 0 ∨ cand.row.Flags_B = 1) ∧
      cand.distance ≤ cand.r) ∧
    st_idw_process hav sqrtQ gps_lat gps_long gps_altitude gps_datetime
        gps_epoch swarm_a swarm_b swarm_c dt_seconds =
      some (st_idw_build sqrtQ gps_lat gps_long gps_altitude gps_datetime
        dt_seconds pool) := by
  constructor
  · obtain ⟨ta, tb, tc, radius, -, -, -, -, hdecomp⟩ :=
      st_idw_pool_eq_some hav gps_lat gps_long gps_epoch swarm_a swarm_b
        swarm_c dt_seconds pool hpool
    intro cand hc
    rw [hdecomp] at hc
    rcases List.mem_append.mp hc with hc' | hc'
    · rcases List.mem_append.mp hc' with hc'' | hc''
      all_goals
        obtain ⟨-, hd, hF, hFF, hFB⟩ := (mem_filters_iff _ _).mp hc''
        exact ⟨hF, by omega, by omega, hd⟩
    · obtain ⟨-, hd, hF, hFF, hFB⟩ := (mem_filters_iff _ _).mp hc'
      exact ⟨hF, by omega, by omega, hd⟩
  · unfold st_idw_process
    rw [hpool]
    rfl

/-- Concrete application of `st_idw_filter_exclusivity`: the candidate
built from one clean coincident record passes all four conditions. -/
theorem st_idw_filter_exclusivity_witness :
    (-2000 ≤ (Cand.mk (mkRec 100) 0 0 1800).row.F_res ∧
      (Cand.mk (mkRec 100) 0 0 1800).row.F_res ≤ 2000) ∧
    ((Cand.mk (mkRec 100) 0 0 1800).row.Flags_F = 0 ∨
      (Cand.mk (mkRec 100) 0 0 1800).row.Flags_F = 1) ∧
    ((Cand.mk (mkRec 100) 0 0 1800).row.Flags_B = 0 ∨
      (Cand.mk (mkRec 100) 0 0 1800).row.Flags_B = 1) ∧
    (Cand.mk (mkRec 100) 0 0 1800).distance ≤
      (Cand.mk (mkRec 100) 0 0 1800).r :=
  (st_idw_filter_exclusivity hav0 sqrtQ1 0 0 0 0 100 [mkRec 100] [mkRec 100]
    [mkRec 100] 14400
    [Cand.mk (mkRec 100) 0 0 1800, Cand.mk (mkRec 100) 0 0 1800,
      Cand.mk (mkRec 100) 0 0 1800]
    (by norm_num [st_idw_pool, DfTime_func, mkRec, inWindow, Kradius,
      addCols, spaceFilter, filter_flags, hav0])).1
    (Cand.mk (mkRec 100) 0 0 1800) (by simp)

/-- Sum of a list divided elementwise by a constant. -/
lemma list_sum_map_div {α : Type} (l : List α) (f : α → ℚ) (s : ℚ) :
    (l.map fun x => f x / s).sum = (l.map f).sum / s := by
  induction l with
  | nil => simp
  | cons x xs ih => simp [ih, add_div]

/-! ## C3: weight normalization and weighted residual sums -/

/-- C3: on a non-empty pooled candidate set whose joint distances are all
strictly positive, the normalized weights `Wj = (1/Dj^2) / sum(1/Dj^2)` sum
to exactly 1, and the result emitted by `st_idw_process` carries the
`Wj`-weighted sums of the candidate `N_res`, `E_res` and `C_res` values. -/
theorem st_idw_weight_normalization (hav : ℚ → ℚ → ℚ → ℚ → ℚ)
    (sqrtQ : ℚ → ℚ) (gps_lat gps_long gps_altitude : ℚ)
    (gps_datetime gps_epoch : ℤ) (swarm_a swarm_b swarm_c : List SwarmRec)
    (dt_seconds : ℤ) (pool : List Cand)
    (hpool : st_idw_pool hav gps_lat gps_long gps_epoch swarm_a swarm_b
      swarm_c dt_seconds = some pool)
    (hne : pool ≠ [])
    (hDj : ∀ cand ∈ pool,
      0 < DistJ sqrtQ cand.distance cand.r (cand.dT : ℚ) (dt_seconds : ℚ)) :
    ((pool.map fun cand =>
        (1 / DistJ sqrtQ cand.distance cand.r (cand.dT : ℚ)
            (dt_seconds : ℚ) ^ 2) /
          (pool.map fun d =>
            1 / DistJ sqrtQ d.distance d.r (d.dT : ℚ)
              (dt_seconds : ℚ) ^ 2).sum).sum = 1) ∧
    st_idw_process hav sqrtQ gps_lat gps_long gps_altitude gps_datetime
        gps_epoch swarm_a swarm_b swarm_c dt_seconds =
      some
        { Latitude := gps_lat, Longitude := gps_long,
          Altitude := gps_altitude, DateTime := gps_datetime,
          N_res := (pool.map fun cand =>
            (1 / DistJ sqrtQ cand.distance cand.r (cand.dT : ℚ)
                (dt_seconds : ℚ) ^ 2) /
              (pool.map fun d =>
                1 / DistJ sqrtQ d.distance d.r (d.dT : ℚ)
                  (dt_seconds : ℚ) ^ 2).sum * cand.row.N_res).sum,
          E_res := (pool.map fun cand =>
            (1 / DistJ sqrtQ cand.distance cand.r (cand.dT : ℚ)
                (dt_seconds : ℚ) ^ 2) /
              (pool.map fun d =>
                1 / DistJ sqrtQ d.distance d.r (d.dT : ℚ)
                  (dt_seconds : ℚ) ^ 2).sum * cand.row.E_res).sum,
          C_res := (pool.map fun cand =>
            (1 / DistJ sqrtQ cand.distance cand.r (cand.dT : ℚ)
                (dt_seconds : ℚ) ^ 2) /
              (pool.map fun d =>
                1 / DistJ sqrtQ d.distance d.r (d.dT : ℚ)
                  (dt_seconds : ℚ) ^ 2).sum * cand.row.C_res).sum,
          TotalPoints := pool.length,
          Minimum_Distance := seriesMin (pool.map fun cand => cand.distance),
          Average_Distance := seriesMean (pool.map fun cand => cand.distance),
          Kp := seriesMean (pool.map fun cand => cand.row.Kp) } := by
  have hWpos : ∀ cand ∈ pool,
      0 < 1 / DistJ sqrtQ cand.distance cand.r (cand.dT : ℚ)
        (dt_seconds : ℚ) ^ 2 := by
    intro cand hc
    exact one_div_pos.mpr (pow_pos (hDj cand hc) 2)
  have hS : 0 < (pool.map fun d =>
      1 / DistJ sqrtQ d.distance d.r (d.dT : ℚ)
        (dt_seconds : ℚ) ^ 2).sum := by
    refine List.sum_pos _ ?_ ?_
    · intro x hx
      obtain ⟨cand, hc, rfl⟩ := List.mem_map.mp hx
      exact hWpos cand hc
    · simpa using hne
  refine ⟨?_, ?_⟩
  · rw [list_sum_map_div]
    exact div_self (ne_of_gt hS)
  · unfold st_idw_process
    rw [hpool]
    rfl

/-- Concrete application of `st_idw_weight_normalization`: three coincident
candidates with joint distance 1 each receive weight 1/3, summing to 1. -/
theorem st_idw_weight_normalization_witness :
    (([Cand.mk (mkRec 100) 0 0 1800, Cand.mk (mkRec 100) 0 0 1800,
        Cand.mk (mkRec 100) 0 0 1800].map fun cand =>
      (1 / DistJ sqrtQ1 cand.distance cand.r (cand.dT : ℚ)
          ((14400 : ℤ) : ℚ) ^ 2) /
        ([Cand.mk (mkRec 100) 0 0 1800, Cand.mk (mkRec 100) 0 0 1800,
            Cand.mk (mkRec 100) 0 0 1800].map fun d =>
          1 / DistJ sqrtQ1 d.distance d.r (d.dT : ℚ)
            ((14400 : ℤ) : ℚ) ^ 2).sum).sum = 1) :=
  (st_idw_weight_normalization hav0 sqrtQ1 0 0 0 0 100 [mkRec 100]
    [mkRec 100] [mkRec 100] 14400 _
    (by norm_num [st_idw_pool, DfTime_func, mkRec, inWindow, Kradius,
      addCols, spaceFilter, filter_flags, hav0])
    (by simp)
    (by norm_num [DistJ, sqrtQ1])).1

/-! ## C1: the empty-pool failure policy (corrected) -/

/-- C1 counterexample: one record per satellite at the query epoch, quality
rejected (`F_res = 5000`), so the pooled set is empty after the filters.
`st_idw_process` does not raise and the batch row carries residuals `0.0`
(the pandas empty-series sums) - not the NaN the claim requires -
together with `TotalPoints = 0`. -/
theorem empty_pool_counterexample :
    st_idw_pool hav0 0 0 100 [badRec 100] [badRec 100] [badRec 100] 14400 =
      some [] ∧
    annotate_point hav0 sqrtQ1 [badRec 100] [badRec 100] [badRec 100] 14400
        gps0 =
      { Latitude := 0, Longitude := 0, Altitude := 0, DateTime := 0,
        N_res := some 0, E_res := some 0, C_res := some 0, TotalPoints := 0,
        Minimum_Distance := none, Average_Distance := none, Kp := none } ∧
    (annotate_point hav0 sqrtQ1 [badRec 100] [badRec 100] [badRec 100] 14400
        gps0).N_res ≠ none := by
  have h2 : annotate_point hav0 sqrtQ1 [badRec 100] [badRec 100]
      [badRec 100] 14400 gps0 =
      { Latitude := 0, Longitude := 0, Altitude := 0, DateTime := 0,
        N_res := some 0, E_res := some 0, C_res := some 0, TotalPoints := 0,
        Minimum_Distance := none, Average_Distance := none, Kp := none } := by
    norm_num [st_idw_pool, st_idw_process, st_idw_build, annotate_point,
      DfTime_func, mkRec, badRec, inWindow, Kradius, addCols, spaceFilter,
      filter_flags, hav0, gps0, seriesMin, seriesMean]
  refine ⟨?_, h2, ?_⟩
  · norm_num [st_idw_pool, DfTime_func, mkRec, badRec, inWindow, Kradius,
      addCols, spaceFilter, filter_flags, hav0]
  · rw [h2]
    exact fun hcon => Option.noConfusion hcon

/-- C1 (amended): for every GPS query point whose pooled candidate set is
empty after the time, spatial and quality filters, the interpolation step
returns without raising a result with `TotalPoints = 0` and residuals
exactly `0.0` (pandas empty-series sums) and NaN diagnostics, the batch
emits one row per input point, and processing continues (no pipeline
abort); NaN residuals appear only when `st_idw_process` raises and the
batch-level handler substitutes its placeholder row. -/
theorem empty_pool_fallback (hav : ℚ → ℚ → ℚ → ℚ → ℚ) (sqrtQ : ℚ → ℚ)
    (swarm_a swarm_b swarm_c : List SwarmRec) (dt_seconds : ℤ)
    (gps : List GPSPoint) (p : GPSPoint) (hp : p ∈ gps)
    (hpool : st_idw_pool hav p.gpsLat p.gpsLong p.epoch swarm_a swarm_b
      swarm_c dt_seconds = some []) :
    (annotate_batch hav sqrtQ swarm_a swarm_b swarm_c dt_seconds gps).length
      = gps.length ∧
    annotate_point hav sqrtQ swarm_a swarm_b swarm_c dt_seconds p =
      { Latitude := p.gpsLat, Longitude := p.gpsLong,
        Altitude := p.gpsAltitude, DateTime := p.gpsDateTime,
        N_res := some 0, E_res := some 0, C_res := some 0, TotalPoints := 0,
        Minimum_Distance := none, Average_Distance := none, Kp := none } ∧
    annotate_point hav sqrtQ swarm_a swarm_b swarm_c dt_seconds p ∈
      annotate_batch hav sqrtQ swarm_a swarm_b swarm_c dt_seconds gps := by
  refine ⟨List.length_map _ _, ?_, List.mem_map_of_mem _ hp⟩
  unfold annotate_point st_idw_process
  rw [hpool]
  rfl

/-- Concrete application of `empty_pool_fallback` on a one-point batch whose
sole pool empties at the quality filter. -/
theorem empty_pool_fallback_witness :
    (annotate_batch hav0 sqrtQ1 [badRec 100] [badRec 100] [badRec 100] 14400
      [gps0]).length = [gps0].length ∧
    annotate_point hav0 sqrtQ1 [badRec 100] [badRec 100] [badRec 100] 14400
        gps0 =
      { Latitude := gps0.gpsLat, Longitude := gps0.gpsLong,
        Altitude := gps0.gpsAltitude, DateTime := gps0.gpsDateTime,
        N_res := some 0, E_res := some 0, C_res := some 0, TotalPoints := 0,
        Minimum_Distance := none, Average_Distance := none, Kp := none } ∧
    annotate_point hav0 sqrtQ1 [badRec 100] [badRec 100] [badRec 100] 14400
        gps0 ∈
      annotate_batch hav0 sqrtQ1 [badRec 100] [badRec 100] [badRec 100]
        14400 [gps0] :=
  empty_pool_fallback hav0 sqrtQ1 [badRec 100] [badRec 100] [badRec 100]
    14400 [gps0] gps0 (by simp)
    (by norm_num [st_idw_pool, DfTime_func, mkRec, badRec, inWindow,
      Kradius, addCols, spaceFilter, filter_flags, hav0, gps0])

/-! ## C9: the exact empty-pool result record -/

/-- C9: when the three time-filtered candidate subsets are non-empty data
frames (so no column access raises) but the pooled set empties at the
spatial and quality filters, `st_idw_process` returns - without raising -
residuals exactly `0.0`, `TotalPoints = 0`, and NaN `Minimum_Distance`,
`Average_Distance` and `Kp`. -/
theorem st_idw_empty_pool_result (hav : ℚ → ℚ → ℚ → ℚ → ℚ) (sqrtQ : ℚ → ℚ)
    (gps_lat gps_long gps_altitude : ℚ) (gps_datetime gps_epoch : ℤ)
    (swarm_a swarm_b swarm_c : List SwarmRec) (dt_seconds : ℤ)
    (ta tb tc : List SwarmRec)
    (hA : DfTime_func swarm_a gps_epoch dt_seconds = some ta) (hAne : ta ≠ [])
    (hB : DfTime_func swarm_b gps_epoch dt_seconds = some tb) (hBne : tb ≠ [])
    (hC : DfTime_func swarm_c gps_epoch dt_seconds = some tc) (hCne : tc ≠ [])
    (hpool : st_idw_pool hav gps_lat gps_long gps_epoch swarm_a swarm_b
      swarm_c dt_seconds = some []) :
    st_idw_process hav sqrtQ gps_lat gps_long gps_altitude gps_datetime
        gps_epoch swarm_a swarm_b swarm_c dt_seconds =
      some
        { Latitude := gps_lat, Longitude := gps_long,
          Altitude := gps_altitude, DateTime := gps_datetime,
          N_res := 0, E_res := 0, C_res := 0, TotalPoints := 0,
          Minimum_Distance := none, Average_Distance := none, Kp := none } := by
  clear hA hAne hB hBne hC hCne
  unfold st_idw_process
  rw [hpool]
  rfl

/-- Concrete application of `st_idw_empty_pool_result`: each satellite
contributes a non-empty time-filtered frame holding one quality-rejected
record, and the pooled set is empty. -/
theorem st_idw_empty_pool_result_witness :
    st_idw_process hav0 sqrtQ1 0 0 0 0 100 [badRec 100] [badRec 100]
        [badRec 100] 14400 =
      some
        { Latitude := 0, Longitude := 0, Altitude := 0, DateTime := 0,
          N_res := 0, E_res := 0, C_res := 0, TotalPoints := 0,
          Minimum_Distance := none, Average_Distance := none, Kp := none } :=
  st_idw_empty_pool_result hav0 sqrtQ1 0 0 0 0 100 [badRec 100] [badRec 100]
    [badRec 100] 14400 [badRec 100] [badRec 100] [badRec 100]
    (by norm_num [DfTime_func, badRec, mkRec, inWindow]) (by norm_num)
    (by norm_num [DfTime_func, badRec, mkRec, inWindow]) (by norm_num)
    (by norm_num [DfTime_func, badRec, mkRec, inWindow]) (by norm_num)
    (by norm_num [st_idw_pool, DfTime_func, mkRec, badRec, inWindow,
      Kradius, addCols, spaceFilter, filter_flags, hav0])

/-! ## C8: parallel chunked processing refines sequential processing -/

/-- Concatenating the GPS chunks restores the trajectory in its original
order. -/
lemma flatten_split_chunks {α : Type} (chunk_size : ℕ) :
    ∀ l : List α, (split_gps_trajectory_into_chunks chunk_size l).flatten = l := by
  have key : ∀ (n : ℕ) (l : List α), l.length ≤ n →
      (split_gps_trajectory_into_chunks chunk_size l).flatten = l := by
    intro n
    induction n with
    | zero =>
      intro l hl
      have hnil : l = [] := List.length_eq_zero.mp (Nat.le_zero.mp hl)
      subst hnil
      rw [split_gps_trajectory_into_chunks]
      rfl
    | succ n ih =>
      intro l hl
      cases l with
      | nil =>
        rw [split_gps_trajectory_into_chunks]
        rfl
      | cons x xs =>
        rw [split_gps_trajectory_into_chunks, List.flatten_cons,
          ih (xs.drop (chunk_size - 1))
            (by simp only [List.length_drop]; simp at hl; omega)]
        simp [List.take_append_drop]
  exact fun l => key l.length l le_rfl

/-- C8: chunked processing that partitions only the GPS trajectory - each
chunk running the identical per-point interpolation plus the row-wise
CHAOS/scalar stage against the complete satellite series - emits, after
in-order concatenation of the chunk results, exactly the rows of sequential
point-by-point processing, in input order; and the automatic chunk size is
always positive, so the hypothesis covers the auto-sized path. -/
theorem parallel_equals_sequential {β : Type} (hav : ℚ → ℚ → ℚ → ℚ → ℚ)
    (sqrtQ : ℚ → ℚ) (swarm_a swarm_b swarm_c : List SwarmRec)
    (dt_seconds : ℤ) (post : RowResult → β) (chunk_size : ℕ)
    (hk : 0 < chunk_size) (gps : List GPSPoint) :
    parallel_maggeo_annotate hav sqrtQ swarm_a swarm_b swarm_c dt_seconds
        post chunk_size gps =
      sequential_annotate hav sqrtQ swarm_a swarm_b swarm_c dt_seconds post
        gps ∧
    (∀ total cores : ℕ, 0 < get_optimal_chunk_size total cores) := by
  constructor
  · unfold parallel_maggeo_annotate process_gps_chunk sequential_annotate
      annotate_batch
    calc ((split_gps_trajectory_into_chunks chunk_size gps).map fun ch =>
            (ch.map (annotate_point hav sqrtQ swarm_a swarm_b swarm_c
              dt_seconds)).map post).flatten
        = ((split_gps_trajectory_into_chunks chunk_size gps).map
            (List.map (post ∘ annotate_point hav sqrtQ swarm_a swarm_b
              swarm_c dt_seconds))).flatten := by
          simp [List.map_map]
      _ = ((split_gps_trajectory_into_chunks chunk_size gps).flatten).map
            (post ∘ annotate_point hav sqrtQ swarm_a swarm_b swarm_c
              dt_seconds) := (List.map_flatten _ _).symm
      _ = gps.map (post ∘ annotate_point hav sqrtQ swarm_a swarm_b swarm_c
            dt_seconds) := by rw [flatten_split_chunks]
      _ = (gps.map (annotate_point hav sqrtQ swarm_a swarm_b swarm_c
            dt_seconds)).map post := by simp [List.map_map]
  · intro total cores
    unfold get_optimal_chunk_size
    have h50 : 50 ≤ max (total / (cores * 4)) 50 := le_max_right _ _
    exact lt_min (by omega) (by norm_num)

/-- Concrete application of `parallel_equals_sequential`: a two-point
trajectory processed in chunks of one equals its sequential processing. -/
theorem parallel_equals_sequential_witness :
    parallel_maggeo_annotate hav0 sqrtQ1 [] [] [] 14400 (fun r => r) 1
        [gps0, gps1] =
      sequential_annotate hav0 sqrtQ1 [] [] [] 14400 (fun r => r)
        [gps0, gps1] :=
  (parallel_equals_sequential hav0 sqrtQ1 [] [] [] 14400 (fun r => r) 1
    (by norm_num) [gps0, gps1]).1

/-! ## C5: the ground synthesis formulas -/

/-- C5: the ground synthesis maps the interpolated residual into the
spherical frame as `B_r = -C_res`, `B_theta = -N_res`, `B_phi = E_res`; the
total field sums the four contributions (core + crust + magnetosphere +
residual) per component while the internal-only variant sums core + crust
alone; and after conversion back to NEC (`X = -B_theta`, `Y = B_phi`,
`Z = -B_r`) the geodetic rotation `N = X*cd + Z*sd`, `C = Z*cd - X*sd`,
`E = Y` is applied identically to both variants. -/
theorem chaos_ground_values_spec (core crust magneto : SphTriple)
    (N_res E_res C_res sd cd : ℝ) :
    chaos_ground_values_row core crust magneto N_res E_res C_res sd cd =
      ((-(core.B_t + crust.B_t + magneto.B_t + -N_res)) * cd +
          (-(core.B_r + crust.B_r + magneto.B_r + -C_res)) * sd,
        core.B_phi + crust.B_phi + magneto.B_phi + E_res,
        (-(core.B_r + crust.B_r + magneto.B_r + -C_res)) * cd -
          (-(core.B_t + crust.B_t + magneto.B_t + -N_res)) * sd,
        (-(core.B_t + crust.B_t)) * cd + (-(core.B_r + crust.B_r)) * sd,
        core.B_phi + crust.B_phi,
        (-(core.B_r + crust.B_r)) * cd - (-(core.B_t + crust.B_t)) * sd) :=
  rfl

/-! ## C7: the derived scalar calculator -/

/-- C7: for every synthesized row, `H = sqrt(N^2+E^2)`,
`F = sqrt(N^2+E^2+C^2)`, `D = degrees(atan2(E, N))` lies in (-180, 180],
`I = degrees(atan2(C, H))` lies in [-90, 90], and a NaN operand propagates
to NaN rather than raising. -/
theorem derived_scalars_spec (n e c : ℝ) :
    computeH n e = Real.sqrt (n ^ 2 + e ^ 2) ∧
    computeF n e c = Real.sqrt (n ^ 2 + e ^ 2 + c ^ 2) ∧
    computeD n e = degrees (arctan2 e n) ∧
    computeI n e c = degrees (arctan2 c (computeH n e)) ∧
    computeD n e ∈ Set.Ioc (-180 : ℝ) 180 ∧
    computeI n e c ∈ Set.Icc (-90 : ℝ) 90 ∧
    (∀ x y : Option ℝ,
      optH none x = none ∧ optH x none = none ∧
      optD none x = none ∧ optD x none = none ∧
      optI none x y = none ∧ optI x none y = none ∧ optI x y none = none ∧
      optF none x y = none ∧ optF x none y = none ∧ optF x y none = none) ∧
    (∀ a b d : ℝ,
      optH (some a) (some b) = some (computeH a b) ∧
      optD (some a) (some b) = some (computeD a b) ∧
      optI (some a) (some b) (some d) = some (computeI a b d) ∧
      optF (some a) (some b) (some d) = some (computeF a b d)) := by
  have hpi := Real.pi_pos
  refine ⟨rfl, rfl, rfl, rfl, ?_, ?_, ?_, ?_⟩
  · have h1 : -Real.pi < Complex.arg ⟨n, e⟩ := Complex.neg_pi_lt_arg _
    have h2 : Complex.arg ⟨n, e⟩ ≤ Real.pi := Complex.arg_le_pi _
    unfold computeD degrees arctan2
    constructor
    · rw [lt_div_iff₀ hpi]
      nlinarith
    · rw [div_le_iff₀ hpi]
      nlinarith
  · have hre : (0 : ℝ) ≤ computeH n e := Real.sqrt_nonneg _
    have habs : |Complex.arg ⟨computeH n e, c⟩| ≤ Real.pi / 2 :=
      Complex.abs_arg_le_pi_div_two_iff.mpr hre
    obtain ⟨h1, h2⟩ := abs_le.mp habs
    unfold computeI degrees arctan2
    constructor
    · rw [le_div_iff₀ hpi]
      nlinarith
    · rw [div_le_iff₀ hpi]
      nlinarith
  · intro x y
    cases x <;> cases y <;>
      exact ⟨rfl, rfl, rfl, rfl, rfl, rfl, rfl, rfl, rfl, rfl⟩
  · intro a b d
    exact ⟨rfl, rfl, rfl, rfl⟩

/-! ## C10: the rotation factors are a unit vector -/

/-- Core algebraic identity behind `gg_to_geo`: with `s^2 = 1 - c^2`,
`ρ = sqrt(A(1-c^2) + Bc^2)` and
`rad = sqrt(h(h+2ρ) + (A^2(1-c^2)+B^2c^2)/ρ^2)` (stated through their
squares), the rotation factors `sd = (A-B)cs/(ρ rad)` and
`cd = (h+ρ)/rad` form a unit vector. -/
lemma sd_cd_unit (A B h ρ rad c s : ℝ)
    (hcs : s ^ 2 = 1 - c ^ 2)
    (hρ2 : ρ ^ 2 = A * (1 - c * c) + B * (c * c))
    (hrad2 : rad ^ 2 =
      h * (h + 2 * ρ) + (A * A * (1 - c * c) + B * B * (c * c)) / ρ ^ 2)
    (hρ0 : ρ ≠ 0) (hrad0 : rad ≠ 0) :
    ((A - B) * c * s / (ρ * rad)) ^ 2 + ((h + ρ) / rad) ^ 2 = 1 := by
  have hradρ : ρ ^ 2 * rad ^ 2 =
      ρ ^ 2 * (h * (h + 2 * ρ)) + (A * A * (1 - c * c) + B * B * (c * c)) := by
    rw [hrad2]
    field_simp
    ring
  field_simp
  linear_combination (rad ^ 2 * (A - B) ^ 2 * c ^ 2) * hcs +
    (rad ^ 2 * (ρ ^ 2 + A * (1 - c * c) + B * (c * c))) * hρ2 +
    (-(rad ^ 2)) * hradρ

/-- C10: for every height `h >= 0` and geodetic colatitude in [0, 180]
degrees, the rotation factors `sd`, `cd` returned by `gg_to_geo` satisfy
`sd^2 + cd^2 = 1` exactly over the reals, so the geodetic rotation
`N = X*cd + Z*sd`, `C = Z*cd - X*sd` preserves `N^2 + C^2` and hence the
total intensity `F`. -/
theorem gg_to_geo_rotation (h gdcolat : ℝ) (hh : 0 ≤ h)
    (hc0 : 0 ≤ gdcolat) (hc180 : gdcolat ≤ 180) :
    ggSd h gdcolat ^ 2 + ggCd h gdcolat ^ 2 = 1 ∧
    (gg_to_geo h gdcolat).2.2.1 = ggSd h gdcolat ∧
    (gg_to_geo h gdcolat).2.2.2 = ggCd h gdcolat ∧
    (∀ X Z : ℝ,
      (X * ggCd h gdcolat + Z * ggSd h gdcolat) ^ 2 +
          (Z * ggCd h gdcolat - X * ggSd h gdcolat) ^ 2 = X ^ 2 + Z ^ 2) ∧
    ∀ X Y Z : ℝ,
      computeF (X * ggCd h gdcolat + Z * ggSd h gdcolat) Y
          (Z * ggCd h gdcolat - X * ggSd h gdcolat) = computeF X Y Z := by
  clear hc0 hc180
  set c := ggCt gdcolat with hcdef
  set s := ggSt gdcolat with hsdef
  have hcs : s ^ 2 = 1 - c ^ 2 := by
    have := Real.sin_sq_add_cos_sq (gdcolat * Real.pi / 180)
    rw [hcdef, hsdef]
    unfold ggCt ggSt
    linarith
  have hc2 : c * c ≤ 1 := by
    have := Real.cos_sq_le_one (gdcolat * Real.pi / 180)
    rw [hcdef]
    unfold ggCt
    nlinarith
  have hcc0 : 0 ≤ c * c := mul_self_nonneg c
  have hB : 0 < ggPlrad * ggPlrad := by
    norm_num [ggPlrad, ggEqrad, ggFlat]
  have hBA : ggPlrad * ggPlrad ≤ ggEqrad * ggEqrad := by
    norm_num [ggPlrad, ggEqrad, ggFlat]
  have harg1 : 0 < ggEqrad * ggEqrad * (1 - c * c) +
      ggPlrad * ggPlrad * (c * c) := by
    nlinarith
  have hρ2 : ggRho gdcolat ^ 2 = ggEqrad * ggEqrad * (1 - c * c) +
      ggPlrad * ggPlrad * (c * c) := by
    unfold ggRho
    exact Real.sq_sqrt harg1.le
  have hρpos : 0 < ggRho gdcolat := by
    unfold ggRho
    exact Real.sqrt_pos.mpr harg1
  have hBB : 0 < ggPlrad * ggPlrad * (ggPlrad * ggPlrad) := mul_pos hB hB
  have hA4B4 : ggPlrad * ggPlrad * (ggPlrad * ggPlrad) ≤
      ggEqrad * ggEqrad * (ggEqrad * ggEqrad) := by
    nlinarith
  have hQ : 0 < ggEqrad * ggEqrad * (ggEqrad * ggEqrad) * (1 - c * c) +
      ggPlrad * ggPlrad * (ggPlrad * ggPlrad) * (c * c) := by
    nlinarith [mul_nonneg (sub_nonneg.mpr hA4B4) (sub_nonneg.mpr hc2)]
  have harg2 : 0 < h * (h + 2 * ggRho gdcolat) +
      (ggEqrad * ggEqrad * (ggEqrad * ggEqrad) * (1 - c * c) +
        ggPlrad * ggPlrad * (ggPlrad * ggPlrad) * (c * c)) /
        ggRho gdcolat ^ 2 := by
    have hfirst : 0 ≤ h * (h + 2 * ggRho gdcolat) :=
      mul_nonneg hh (by linarith)
    have hsecond : 0 < (ggEqrad * ggEqrad * (ggEqrad * ggEqrad) * (1 - c * c) +
        ggPlrad * ggPlrad * (ggPlrad * ggPlrad) * (c * c)) /
        ggRho gdcolat ^ 2 := div_pos hQ (pow_pos hρpos 2)
    linarith
  have hrad2 : ggRad h gdcolat ^ 2 = h * (h + 2 * ggRho gdcolat) +
      (ggEqrad * ggEqrad * (ggEqrad * ggEqrad) * (1 - c * c) +
        ggPlrad * ggPlrad * (ggPlrad * ggPlrad) * (c * c)) /
        ggRho gdcolat ^ 2 := by
    unfold ggRad
    exact Real.sq_sqrt harg2.le
  have hradpos : 0 < ggRad h gdcolat := by
    unfold ggRad
    exact Real.sqrt_pos.mpr harg2
  have hmain : ggSd h gdcolat ^ 2 + ggCd h gdcolat ^ 2 = 1 := by
    have := sd_cd_unit (ggEqrad * ggEqrad) (ggPlrad * ggPlrad) h
      (ggRho gdcolat) (ggRad h gdcolat) c s hcs hρ2 hrad2
      (ne_of_gt hρpos) (ne_of_gt hradpos)
    unfold ggSd ggCd
    exact this
  refine ⟨hmain, rfl, rfl, ?_, ?_⟩
  · intro X Z
    linear_combination (X ^ 2 + Z ^ 2) * hmain
  · intro X Y Z
    unfold computeF
    rw [show (X * ggCd h gdcolat + Z * ggSd h gdcolat) ^ 2 + Y ^ 2 +
        (Z * ggCd h gdcolat - X * ggSd h gdcolat) ^ 2 =
        X ^ 2 + Y ^ 2 + Z ^ 2 from by
      linear_combination (X ^ 2 + Z ^ 2) * hmain]

/-- Concrete application of `gg_to_geo_rotation` at sea level on the polar
axis. -/
theorem gg_to_geo_rotation_witness :
    ggSd 0 0 ^ 2 + ggCd 0 0 ^ 2 = 1 :=
  (gg_to_geo_rotation 0 0 (by norm_num) (by norm_num) (by norm_num)).1

end MagGeo
